import Mathlib

/-!
# Server<HTTPS> of server_https.hpp

A shallow embedding of the TLS specialisation of the web server: the constructor
and start(), which configure the asio::ssl::context, and accept(), whose two
completion handlers (async_accept, async_handshake) drive every connection.

Calls into asio, OpenSSL, ServerBase and the user callbacks are recorded, in
program order, in a trace of Effect values; what those calls hand back to the
code (whether a file loads, whether a socket option can be set, which timer
get_timeout_timer returns) is an explicit input of the embedded function.
-/

namespace SimpleWeb

/-! ## Strings, error codes, timers -/

/-- A std::string, as the sequence of its char values. -/
abbrev CxxString := List UInt8

/-- The text std::to_string yields for a non-negative integer: its decimal digits,
most significant first, as ASCII. -/
def to_string (n : Nat) : CxxString :=
  (Nat.toDigits 10 n).map (fun c => c.toNat.toUInt8)

/-- The char value of a colon. -/
def colon : UInt8 := 58

/-- The constant SSL_MAX_SSL_SESSION_ID_LENGTH of openssl/ssl.h. -/
def SSL_MAX_SSL_SESSION_ID_LENGTH : Nat := 32

/-- The constant SSL_MAX_SID_CTX_LENGTH of openssl/ssl.h, the capacity of the
sid_ctx buffer of an SSL_CTX. -/
def SSL_MAX_SID_CTX_LENGTH : Nat := 32

/-- An asio error_code, by its numeric value; 0 is success. -/
structure error_code where
  value : Nat
deriving DecidableEq, Repr

/-- The conversion of an error_code to bool: true when it holds an error. -/
def error_code.failed (ec : error_code) : Bool := ec.value != 0

/-- The code asio::error::operation_aborted (ECANCELED on POSIX systems). -/
def operation_aborted : error_code := ⟨125⟩

/-- Life cycle of the wait posted on a deadline timer. -/
inductive TimerState where
  | armed
  | fired
  | cancelled
deriving DecidableEq, Repr

/-- The deadline timer a handshake handler captured: its identity and the state
it is in when the handler runs. -/
structure deadline_timer where
  id : Nat
  state : TimerState
deriving DecidableEq, Repr

/-- Modelled from the spec: TimeoutTimer.cancel (asio::deadline_timer is a library
type, not part of server_https.hpp). It cancels a pending wait and is a no-op on a
timer that has already fired or was already cancelled. -/
def deadline_timer.cancel (t : deadline_timer) : deadline_timer :=
  match t.state with
  | .armed => { t with state := .cancelled }
  | .fired => t
  | .cancelled => t

/-! ## The TLS context -/

/-- The asio::ssl::context of the server, by the settings the code touches. -/
structure ssl_context where
  certificate_chain_file : Option CxxString
  private_key_file : Option CxxString
  verify_file : Option CxxString
  verify_mode : Nat
  sid_ctx : Option CxxString
deriving DecidableEq, Repr

/-- A freshly constructed context: nothing loaded, SSL_VERIFY_NONE, no session id
context. -/
def ssl_context.tlsv12 : ssl_context :=
  { certificate_chain_file := none, private_key_file := none, verify_file := none,
    verify_mode := 0, sid_ctx := none }

/-- The verify mode bits of asio::ssl. -/
def verify_peer : Nat := 1

/-- The verify mode bit that rejects a client without certificate. -/
def verify_fail_if_no_peer_cert : Nat := 2

/-- The verify mode bit that asks for the client certificate only once. -/
def verify_client_once : Nat := 4

/-- OpenSSL SSL_CTX_set_session_id_context(ctx, sid_ctx, sid_ctx_len): refuses a
length above the buffer capacity and otherwise copies sid_ctx_len bytes. -/
def SSL_CTX_set_session_id_context (ctx : ssl_context) (sid_ctx : CxxString)
    (sid_ctx_len : Nat) : ssl_context :=
  if sid_ctx_len > SSL_MAX_SID_CTX_LENGTH then ctx
  else { ctx with sid_ctx := some (sid_ctx.take sid_ctx_len) }

/-! ## Effects -/

/-- The calls the code makes to its collaborators. A session is named by the
number of the Session object; its request object is named by the same number. -/
inductive Effect where
  | SSL_CTX_set_session_id_context (sid_ctx : CxxString) (len : Nat)
  | ServerBase_start
  | async_accept (session : Nat)
  | set_no_delay (session : Nat)
  | get_timeout_timer (session : Nat) (seconds : Nat)
  | async_handshake (session : Nat) (timer : Option Nat)
  | timer_cancel (timer : Nat)
  | read_request_and_content (session : Nat)
  | on_error (request : Nat) (ec : error_code)
deriving DecidableEq, Repr

/-! ## The server -/

/-- The members of ServerBase::Config the code reads. -/
structure Config where
  port : Nat
  address : CxxString
  timeout_request : Nat
deriving DecidableEq, Repr

/-- Server<HTTPS>: the members declared in the class, the members of ServerBase it
uses (config, and whether the std::function on_error holds a target), and the
bookkeeping of the embedding: the number of the next Session object and the
sessions whose async_accept is outstanding. -/
structure Server where
  config : Config
  on_error : Bool
  session_id_context : CxxString
  set_session_id_context : Bool
  context : ssl_context
  next_session : Nat
  accepts : List Nat
deriving DecidableEq, Repr

/-- What the file system answers when the context loads a file. -/
structure Files where
  certificate_chain_ok : CxxString → Bool
  private_key_ok : CxxString → Bool
  verify_ok : CxxString → Bool

/-- The exception a failing load throws out of the constructor. -/
inductive ConfigurationError where
  | use_certificate_chain_file
  | use_private_key_file
  | load_verify_file
deriving DecidableEq, Repr

/-- ServerBase(port): the config with the given port; the initial values of the
other members are declared in server_http.hpp and come in as defaults. -/
def ServerBase (defaults : Config) (port : Nat) : Config :=
  { defaults with port := port }

/-- The constructor Server(cert_file, private_key_file, verify_file); a load that
fails throws, and then no server exists. The member on_error of ServerBase is a
default-constructed std::function, so it holds no target. -/
def Server.construct (fs : Files) (defaults : Config) (cert_file private_key_file
    verify_file : CxxString) : Except ConfigurationError Server :=
  let context := ssl_context.tlsv12
  if !fs.certificate_chain_ok cert_file then .error .use_certificate_chain_file else
  let context := { context with certificate_chain_file := some cert_file }
  if !fs.private_key_ok private_key_file then .error .use_private_key_file else
  let context := { context with private_key_file := some private_key_file }
  let base : Server :=
    { config := ServerBase defaults 443, on_error := false, session_id_context := [],
      set_session_id_context := false, context := context, next_session := 0,
      accepts := [] }
  if verify_file.length > 0 then
    if !fs.verify_ok verify_file then .error .load_verify_file else
    let context := { context with verify_file := some verify_file }
    let context := { context with
      verify_mode := verify_peer ||| verify_fail_if_no_peer_cert ||| verify_client_once }
    .ok { base with context := context, set_session_id_context := true }
  else
    .ok base

/-- The static factory create(cert_file, private_key_file, verify_file). -/
def Server.create (fs : Files) (defaults : Config) (cert_file private_key_file
    verify_file : CxxString) : Except ConfigurationError Server :=
  Server.construct fs defaults cert_file private_key_file verify_file

/-- The method start(): installs the session id context when the flag is set, then
calls ServerBase::start(), which is recorded as an effect. -/
def Server.start (s : Server) : Server × List Effect :=
  if s.set_session_id_context then
    let sid := to_string s.config.port ++ [colon]
    let sid := sid ++ s.config.address.reverse
    let len := min sid.length SSL_MAX_SSL_SESSION_ID_LENGTH
    ({ s with session_id_context := sid,
              context := SSL_CTX_set_session_id_context s.context sid len },
     [.SSL_CTX_set_session_id_context sid len, .ServerBase_start])
  else
    (s, [.ServerBase_start])

/-! ## The accept loop -/

/-- What the collaborators hand back while the async_accept handler runs:
set_no_delay is none when set_option succeeds and the error otherwise, and timer
is what get_timeout_timer returns (none for a null pointer). -/
structure Env where
  set_no_delay : Option error_code
  timer : Option Nat
deriving DecidableEq, Repr

/-- The result of running a completion handler: the server afterwards, the calls
made in order, and the exception that left the handler, if any. -/
structure Run where
  server : Server
  trace : List Effect
  thrown : Option error_code
deriving DecidableEq, Repr

/-- The method accept(): makes a new Session and posts async_accept for it. -/
def Server.accept (s : Server) : Server × List Effect :=
  let session := s.next_session
  ({ s with next_session := s.next_session + 1, accepts := s.accepts ++ [session] },
   [.async_accept session])

/-- The handler given to async_handshake, with its captures session and timer. -/
def handshake_handler (s : Server) (session : Nat) (timer : Option deadline_timer)
    (ec : error_code) : Option deadline_timer × List Effect :=
  let (timer, t1) :=
    match timer with
    | some t => (some t.cancel, [Effect.timer_cancel t.id])
    | none => (none, [])
  if !ec.failed then
    (timer, t1 ++ [.read_request_and_content session])
  else if s.on_error then
    (timer, t1 ++ [.on_error session ec])
  else
    (timer, t1)

/-- The handler given to async_accept, with its capture session. The one-argument
set_option of asio throws system_error when the option cannot be set. -/
def accept_handler (s : Server) (session : Nat) (ec : error_code) (env : Env) : Run :=
  let (s, t1) := if ec ≠ operation_aborted then s.accept else (s, [])
  if !ec.failed then
    match env.set_no_delay with
    | some err => { server := s, trace := t1 ++ [.set_no_delay session], thrown := some err }
    | none =>
      { server := s,
        trace := t1 ++ [.set_no_delay session,
                        .get_timeout_timer session s.config.timeout_request,
                        .async_handshake session env.timer],
        thrown := none }
  else if s.on_error then
    { server := s, trace := t1 ++ [.on_error session ec], thrown := none }
  else
    { server := s, trace := t1, thrown := none }

/-- One accept completion delivered by the io_service: the outstanding
async_accept posted first completes with ec and its handler runs. There is
nothing to deliver when no async_accept is outstanding. -/
def complete_accept (s : Server) (ec : error_code) (env : Env) : Option Run :=
  match s.accepts with
  | [] => none
  | session :: rest => some (accept_handler { s with accepts := rest } session ec env)

/-- A sequence of accept completions, delivered one after the other. -/
def complete_accepts (s : Server) : List (error_code × Env) → Option Server
  | [] => some s
  | (ec, env) :: cs =>
    match complete_accept s ec env with
    | none => none
    | some r => complete_accepts r.server cs

/-! ## Reading a trace -/

/-- Whether a call posts an accept operation. -/
def Effect.isAccept : Effect → Bool
  | .async_accept _ => true
  | _ => false

/-- Whether a call starts the deadline timer. -/
def Effect.isTimerStart : Effect → Bool
  | .get_timeout_timer _ _ => true
  | _ => false

/-- Whether a call begins a TLS handshake. -/
def Effect.isHandshake : Effect → Bool
  | .async_handshake _ _ => true
  | _ => false

/-- Whether a call cancels a timer. -/
def Effect.isCancel : Effect → Bool
  | .timer_cancel _ => true
  | _ => false

/-- Whether a call hands a session to the request pipeline. -/
def Effect.isHandOff : Effect → Bool
  | .read_request_and_content _ => true
  | _ => false

/-- Whether a call reports to the error handler. -/
def Effect.isReport : Effect → Bool
  | .on_error _ _ => true
  | _ => false

/-- Whether a call sets the no-delay option. -/
def Effect.isNoDelay : Effect → Bool
  | .set_no_delay _ => true
  | _ => false

/-! ## Sample values -/

/-- A file system on which every load succeeds. -/
def sampleFiles : Files :=
  { certificate_chain_ok := fun _ => true, private_key_ok := fun _ => true,
    verify_ok := fun _ => true }

/-- Initial config members: no address, five seconds of request timeout. -/
def sampleDefaults : Config := { port := 0, address := [], timeout_request := 5 }

/-- The config a user sets before start: port 8443, address "ab". -/
def sampleConfig : Config := { port := 8443, address := [97, 98], timeout_request := 5 }

/-- A config with port 8443 and a 38-byte address, the letters a to z, the digits
0 to 9, then "ab". -/
def sampleLongConfig : Config :=
  { port := 8443,
    address := [97, 98, 99, 100, 101, 102, 103, 104, 105, 106, 107, 108, 109, 110, 111,
                112, 113, 114, 115, 116, 117, 118, 119, 120, 121, 122, 48, 49, 50, 51, 52,
                53, 54, 55, 56, 57, 97, 98],
    timeout_request := 5 }

/-- A server with a verify file, as the constructor leaves it. -/
def sampleVerifying : Server :=
  { config := { port := 443, address := [], timeout_request := 5 },
    on_error := false, session_id_context := [], set_session_id_context := true,
    context := { certificate_chain_file := some [99], private_key_file := some [107],
                 verify_file := some [118], verify_mode := 7, sid_ctx := none },
    next_session := 0, accepts := [] }

/-- A server without verify file and without error handler, as the constructor
leaves it. -/
def samplePlain : Server :=
  { config := { port := 443, address := [], timeout_request := 5 },
    on_error := false, session_id_context := [], set_session_id_context := false,
    context := { certificate_chain_file := some [99], private_key_file := some [107],
                 verify_file := none, verify_mode := 0, sid_ctx := none },
    next_session := 0, accepts := [] }

/-! ## The outcome of a handshake -/

/-- What the async_handshake handler does after the timer is dealt with. -/
def handshake_outcome (s : Server) (session : Nat) (ec : error_code) : List Effect :=
  if !ec.failed then [.read_request_and_content session]
  else if s.on_error then [.on_error session ec]
  else []

/-! ## Readings of the handlers to be checked -/

/-- Exactly one outcome per handshake completion: success gives one hand-off and no
report; failure gives one report, with the request of the session and the code, and
no hand-off. -/
def ExactlyOneOutcome (s : Server) (session : Nat) (timer : Option deadline_timer)
    (ec : error_code) : Prop :=
  (ec.failed = false →
    (handshake_handler s session timer ec).2.filter Effect.isHandOff
        = [.read_request_and_content session] ∧
    (handshake_handler s session timer ec).2.filter Effect.isReport = []) ∧
  (ec.failed = true →
    (handshake_handler s session timer ec).2.filter Effect.isReport
        = [.on_error session ec] ∧
    (handshake_handler s session timer ec).2.filter Effect.isHandOff = [])

/-- The first call of the handshake handler is a timer cancel, and it is the only
cancel. -/
def CancelsFirstAndOnce (s : Server) (session : Nat) (timer : Option deadline_timer)
    (ec : error_code) : Prop :=
  ((handshake_handler s session timer ec).2.head?.map Effect.isCancel = some true) ∧
  (handshake_handler s session timer ec).2.countP Effect.isCancel = 1

/-- A handshake completion that finds its timer fired does nothing: no hand-off and
no report. -/
def LateCompletionIsNoOp (s : Server) (session : Nat) (t : deadline_timer)
    (ec : error_code) : Prop :=
  t.state = .fired →
    (handshake_handler s session (some t) ec).2.countP Effect.isHandOff = 0 ∧
    (handshake_handler s session (some t) ec).2.countP Effect.isReport = 0

/-- After a successful accept the timer is started and the handshake begun, and
nothing is thrown, whatever set_option does. -/
def NoDelayFailureIgnored (s : Server) (session : Nat) (ec : error_code) (env : Env) :
    Prop :=
  ec.failed = false →
    (accept_handler s session ec env).trace.countP Effect.isTimerStart = 1 ∧
    (accept_handler s session ec env).trace.countP Effect.isHandshake = 1 ∧
    (accept_handler s session ec env).thrown = none

/-- A failed accept, other than an abort, is reported once with its code, and
starts no timer, no handshake and no hand-off. -/
def AcceptFailureReportedOnce (s : Server) (session : Nat) (ec : error_code) (env : Env) :
    Prop :=
  ec.failed = true → ec ≠ operation_aborted →
    (accept_handler s session ec env).trace.filter Effect.isReport
        = [.on_error session ec] ∧
    (accept_handler s session ec env).trace.countP Effect.isTimerStart = 0 ∧
    (accept_handler s session ec env).trace.countP Effect.isHandshake = 0 ∧
    (accept_handler s session ec env).trace.countP Effect.isHandOff = 0

/-! ## Lemmas on the constructor and start -/

/-- A server that the constructor returns has no session id context yet, and its
flag records whether a verify file was given. -/
theorem construct_ok (fs : Files) (defaults : Config) (cert key verify : CxxString)
    (srv : Server) (h : Server.construct fs defaults cert key verify = .ok srv) :
    srv.context.sid_ctx = none ∧ (srv.set_session_id_context = true ↔ verify ≠ []) := by
  unfold Server.construct at h
  simp only [] at h
  split at h
  · cases h
  split at h
  · cases h
  split at h
  · rename_i hv
    split at h
    · cases h
    · injection h with h
      subst h
      refine ⟨rfl, ?_⟩
      simp only [true_iff]
      intro hnil
      subst hnil
      simp at hv
  · rename_i hv
    injection h with h
    subst h
    refine ⟨rfl, ?_⟩
    simp only [Bool.false_eq_true, false_iff, not_not]
    simpa using hv

/-- The sample server without verify file is what create returns for certificate
"c" and key "k". -/
theorem samplePlain_created :
    Server.create sampleFiles sampleDefaults [99] [107] [] = .ok samplePlain := rfl

/-- The length start passes to OpenSSL never exceeds the buffer capacity, so the
call stores the truncated string. -/
theorem set_session_id_context_min (ctx : ssl_context) (sid : CxxString) :
    (SSL_CTX_set_session_id_context ctx sid
      (min sid.length SSL_MAX_SSL_SESSION_ID_LENGTH)).sid_ctx
      = some (sid.take (min sid.length 32)) := by
  have h : ¬ min sid.length SSL_MAX_SSL_SESSION_ID_LENGTH > SSL_MAX_SID_CTX_LENGTH := by
    simp only [SSL_MAX_SSL_SESSION_ID_LENGTH, SSL_MAX_SID_CTX_LENGTH]
    omega
  unfold SSL_CTX_set_session_id_context
  rw [if_neg h]
  rfl

/-- The context after start, by the flag. -/
theorem start_sid_ctx (s : Server) :
    s.start.1.context.sid_ctx =
      if s.set_session_id_context then
        some ((to_string s.config.port ++ [colon] ++ s.config.address.reverse).take
          (min (to_string s.config.port ++ [colon] ++ s.config.address.reverse).length 32))
      else s.context.sid_ctx := by
  unfold Server.start
  by_cases hf : s.set_session_id_context = true
  · simp only [hf, if_true]
    exact set_session_id_context_min _ _
  · simp only [hf, if_false, Bool.false_eq_true]

/-- The trace of start, by the flag. -/
theorem start_trace (s : Server) :
    s.start.2 =
      if s.set_session_id_context then
        [.SSL_CTX_set_session_id_context
            (to_string s.config.port ++ [colon] ++ s.config.address.reverse)
            (min (to_string s.config.port ++ [colon] ++ s.config.address.reverse).length
              SSL_MAX_SSL_SESSION_ID_LENGTH),
         .ServerBase_start]
      else [.ServerBase_start] := by
  unfold Server.start
  by_cases hf : s.set_session_id_context = true
  · simp only [hf, if_true]
  · simp only [hf, if_false, Bool.false_eq_true]

/-! ## Claims on the TLS context -/

/-- C1: for a listener built by create and then started (the public members config
and on_error may have been assigned in between), start installs a session id
context on the TLS context if and only if the verify file path is non-empty: the
context has none before start, start calls SSL_CTX_set_session_id_context exactly
when the path is non-empty, the context holds an identifier afterwards exactly
then, and with an empty path it is still unset after start. -/
theorem start_installs_session_id_iff_verify_file (fs : Files) (defaults cfg : Config)
    (handler : Bool) (cert key verify : CxxString) (srv : Server)
    (h : Server.create fs defaults cert key verify = .ok srv) :
    srv.context.sid_ctx = none ∧
    ((∃ sid len, Effect.SSL_CTX_set_session_id_context sid len ∈
        (Server.start { srv with config := cfg, on_error := handler }).2) ↔ verify ≠ []) ∧
    ((Server.start { srv with config := cfg, on_error := handler }).1.context.sid_ctx.isSome
        = true ↔ verify ≠ []) ∧
    (verify = [] →
      (Server.start { srv with config := cfg, on_error := handler }).1.context.sid_ctx
        = none) := by
  obtain ⟨hnone, hflag⟩ := construct_ok fs defaults cert key verify srv h
  refine ⟨hnone, ?_, ?_, ?_⟩
  · rw [start_trace]
    by_cases hv : verify = []
    · have hf : srv.set_session_id_context = false := by
        cases hs : srv.set_session_id_context
        · rfl
        · exact absurd (hflag.mp hs) (by simp [hv])
      simp [hf, hv]
    · have hf : srv.set_session_id_context = true := hflag.mpr hv
      simp [hf, hv]
  · rw [start_sid_ctx]
    by_cases hv : verify = []
    · have hf : srv.set_session_id_context = false := by
        cases hs : srv.set_session_id_context
        · rfl
        · exact absurd (hflag.mp hs) (by simp [hv])
      simp [hf, hv, hnone]
    · have hf : srv.set_session_id_context = true := hflag.mpr hv
      simp [hf, hv]
  · intro hv
    rw [start_sid_ctx]
    have hf : srv.set_session_id_context = false := by
      cases hs : srv.set_session_id_context
      · rfl
      · exact absurd (hflag.mp hs) (by simp [hv])
    simp [hf, hnone]

/-- Witness of C1: a server created with certificate "c", key "k" and verify file
"v", given port 8443 and address "ab", then started. -/
theorem start_installs_session_id_iff_verify_file_witness :
    Server.create sampleFiles sampleDefaults [99] [107] [118] = .ok sampleVerifying ∧
    (sampleVerifying.context.sid_ctx = none ∧
    ((∃ sid len, Effect.SSL_CTX_set_session_id_context sid len ∈
        (Server.start { sampleVerifying with config := sampleConfig, on_error := true }).2)
        ↔ ([118] : CxxString) ≠ []) ∧
    ((Server.start { sampleVerifying with config := sampleConfig,
                                          on_error := true }).1.context.sid_ctx.isSome
        = true ↔ ([118] : CxxString) ≠ []) ∧
    (([118] : CxxString) = [] →
      (Server.start { sampleVerifying with config := sampleConfig,
                                           on_error := true }).1.context.sid_ctx
        = none)) :=
  ⟨rfl, start_installs_session_id_iff_verify_file sampleFiles sampleDefaults sampleConfig
    true [99] [107] [118] sampleVerifying rfl⟩

/-- C2: whenever start installs the identifier (the flag is set), for every port and
every address the installed byte string is the first min(n, 32) bytes of s, where s
is the decimal text of the port, a colon, and the address bytes in reverse order,
and n is the length of s; the installed identifier is at most 32 bytes long. -/
theorem start_session_id_is_truncated_port_and_reversed_address (s : Server)
    (h : s.set_session_id_context = true) :
    s.start.1.context.sid_ctx
      = some ((to_string s.config.port ++ [colon] ++ s.config.address.reverse).take
          (min (to_string s.config.port ++ [colon] ++ s.config.address.reverse).length 32)) ∧
    ∀ id, s.start.1.context.sid_ctx = some id → id.length ≤ 32 := by
  have key := start_sid_ctx s
  simp only [h, if_true] at key
  refine ⟨key, ?_⟩
  intro id hid
  rw [key] at hid
  injection hid with hid
  subst hid
  simp only [List.length_take]
  omega

/-- Witness of C2: port 8443 and the 38-byte address "abcdefghijklmnopqrstuvwxyz0123456789ab";
the identifier is "8443:ba9876543210zyxwvutsrqponml", the first 32 of 43 bytes. -/
theorem start_session_id_is_truncated_port_and_reversed_address_witness :
    (Server.start { sampleVerifying with config := sampleLongConfig }).1.context.sid_ctx
      = some [56, 52, 52, 51, 58, 98, 97, 57, 56, 55, 54, 53, 52, 51, 50, 49, 48, 122, 121,
              120, 119, 118, 117, 116, 115, 114, 113, 112, 111, 110, 109, 108] ∧
    ∀ id, (Server.start { sampleVerifying with config := sampleLongConfig }).1.context.sid_ctx
      = some id → id.length ≤ 32 := by
  have h := start_session_id_is_truncated_port_and_reversed_address
    { sampleVerifying with config := sampleLongConfig } rfl
  refine ⟨?_, h.2⟩
  rw [h.1]
  decide

/-! ## Lemmas on the two completion handlers -/

/-- A successful completion code is not the abort code. -/
theorem ne_aborted_of_success (ec : error_code) (h : ec.failed = false) :
    ec ≠ operation_aborted := by
  intro he
  subst he
  simp [error_code.failed, operation_aborted] at h

/-- The async_accept handler on the abort code: no new accept; the error handler,
when there is one, is called. -/
theorem accept_handler_aborted (s : Server) (session : Nat) (env : Env) :
    accept_handler s session operation_aborted env =
      { server := s,
        trace := if s.on_error then [.on_error session operation_aborted] else [],
        thrown := none } := by
  have hf : operation_aborted.failed = true := rfl
  unfold accept_handler
  cases ho : s.on_error <;> simp [hf, ho]

/-- The async_accept handler on a failure other than abort. -/
theorem accept_handler_failure (s : Server) (session : Nat) (ec : error_code) (env : Env)
    (hf : ec.failed = true) (ha : ec ≠ operation_aborted) :
    accept_handler s session ec env =
      { server := s.accept.1,
        trace := .async_accept s.next_session ::
          (if s.on_error then [.on_error session ec] else []),
        thrown := none } := by
  unfold accept_handler
  cases ho : s.on_error <;> simp [hf, ha, ho, Server.accept]

/-- The async_accept handler on success, when set_option succeeds. -/
theorem accept_handler_success (s : Server) (session : Nat) (ec : error_code) (env : Env)
    (hf : ec.failed = false) (hn : env.set_no_delay = none) :
    accept_handler s session ec env =
      { server := s.accept.1,
        trace := [.async_accept s.next_session, .set_no_delay session,
                  .get_timeout_timer session s.config.timeout_request,
                  .async_handshake session env.timer],
        thrown := none } := by
  have ha := ne_aborted_of_success ec hf
  unfold accept_handler
  simp [hf, ha, hn, Server.accept]

/-- The async_accept handler on success, when set_option throws. -/
theorem accept_handler_throw (s : Server) (session : Nat) (ec : error_code) (env : Env)
    (err : error_code) (hf : ec.failed = false) (hn : env.set_no_delay = some err) :
    accept_handler s session ec env =
      { server := s.accept.1,
        trace := [.async_accept s.next_session, .set_no_delay session],
        thrown := some err } := by
  have ha := ne_aborted_of_success ec hf
  unfold accept_handler
  simp [hf, ha, hn, Server.accept]

/-- Unless the code is the abort code, the handler leaves the server as accept()
leaves it. -/
theorem accept_handler_server (s : Server) (session : Nat) (ec : error_code) (env : Env)
    (ha : ec ≠ operation_aborted) :
    (accept_handler s session ec env).server = s.accept.1 := by
  cases hf : ec.failed
  · cases hn : env.set_no_delay with
    | none => rw [accept_handler_success s session ec env hf hn]
    | some err => rw [accept_handler_throw s session ec env err hf hn]
  · rw [accept_handler_failure s session ec env hf ha]

/-- The async_handshake handler without timer. -/
theorem handshake_handler_none (s : Server) (session : Nat) (ec : error_code) :
    handshake_handler s session none ec = (none, handshake_outcome s session ec) := by
  unfold handshake_handler handshake_outcome
  cases hf : ec.failed <;> cases ho : s.on_error <;> simp

/-- The async_handshake handler with a timer. -/
theorem handshake_handler_some (s : Server) (session : Nat) (t : deadline_timer)
    (ec : error_code) :
    handshake_handler s session (some t) ec =
      (some t.cancel, .timer_cancel t.id :: handshake_outcome s session ec) := by
  unfold handshake_handler handshake_outcome
  cases hf : ec.failed <;> cases ho : s.on_error <;> simp

/-- One delivered completion, with one accept outstanding and a code other than
abort: the handler runs and again one accept is outstanding, the one of the newest
session. -/
theorem complete_accept_step (s : Server) (a : Nat) (ec : error_code) (env : Env)
    (hs : s.accepts = [a]) (ha : ec ≠ operation_aborted) :
    ∃ r, complete_accept s ec env = some r ∧ r.server.accepts = [s.next_session] ∧
      r.server.next_session = s.next_session + 1 := by
  unfold complete_accept
  rw [hs]
  refine ⟨_, rfl, ?_, ?_⟩
  · rw [accept_handler_server _ _ _ _ ha]
    rfl
  · rw [accept_handler_server _ _ _ _ ha]
    rfl

/-- Any sequence of completions without abort code, from a state with one accept
outstanding, runs to the end and leaves one accept outstanding; every completion
allocated one session. -/
theorem complete_accepts_invariant (cs : List (error_code × Env)) :
    ∀ (s : Server) (a : Nat), s.accepts = [a] →
      (∀ c ∈ cs, c.1 ≠ operation_aborted) →
      ∃ s1, complete_accepts s cs = some s1 ∧ s1.accepts.length = 1 ∧
        s1.next_session = s.next_session + cs.length := by
  induction cs with
  | nil =>
    intro s a hs _
    exact ⟨s, rfl, by rw [hs]; rfl, rfl⟩
  | cons c cs ih =>
    intro s a hs hc
    obtain ⟨ec, env⟩ := c
    have ha : ec ≠ operation_aborted := hc (ec, env) (List.mem_cons_self _ _)
    obtain ⟨r, hr, hacc, hnext⟩ := complete_accept_step s a ec env hs ha
    obtain ⟨s1, hs1, hlen, hn1⟩ :=
      ih r.server s.next_session hacc (fun c hmem => hc c (List.mem_cons_of_mem _ hmem))
    refine ⟨s1, ?_, hlen, ?_⟩
    · simp only [complete_accepts, hr]
      exact hs1
    · rw [hn1, hnext, List.length_cons]
      omega

/-! ## Claims on the accept loop -/

/-- C3: for every accept completion whose code is not operation_aborted, the first
call of the completion handler posts the new accept operation (for a newly made
session); everything else the handler does comes after it and is handling of the
completed result: setting the no-delay option, starting the timer, beginning the
handshake, or the error report. No second accept is posted. -/
theorem accept_handler_posts_accept_first (s : Server) (session : Nat) (ec : error_code)
    (env : Env) (h : ec ≠ operation_aborted) :
    ∃ rest, (accept_handler s session ec env).trace
        = Effect.async_accept s.next_session :: rest ∧
      rest.countP Effect.isAccept = 0 ∧
      (∀ e ∈ rest, e.isNoDelay = true ∨ e.isTimerStart = true ∨ e.isHandshake = true ∨
        e.isReport = true) ∧
      (∀ e ∈ (accept_handler s session ec env).trace,
        (e.isNoDelay = true ∨ e.isTimerStart = true ∨ e.isHandshake = true ∨
          e.isReport = true) → e ∈ rest) := by
  cases hf : ec.failed
  · cases hn : env.set_no_delay with
    | none =>
      rw [accept_handler_success s session ec env hf hn]
      refine ⟨_, rfl, ?_, ?_, ?_⟩
      · simp [Effect.isAccept]
      · intro e he
        simp only [List.mem_cons, List.mem_singleton, List.not_mem_nil, or_false] at he
        rcases he with rfl | rfl | rfl <;>
          simp [Effect.isNoDelay, Effect.isTimerStart, Effect.isHandshake]
      · intro e he hk
        simp only [List.mem_cons, List.not_mem_nil, or_false] at he
        rcases he with rfl | he
        · simp [Effect.isNoDelay, Effect.isTimerStart, Effect.isHandshake,
            Effect.isReport] at hk
        · simpa using he
    | some err =>
      rw [accept_handler_throw s session ec env err hf hn]
      refine ⟨_, rfl, ?_, ?_, ?_⟩
      · simp [Effect.isAccept]
      · intro e he
        simp only [List.mem_singleton] at he
        subst he
        simp [Effect.isNoDelay]
      · intro e he hk
        simp only [List.mem_cons, List.not_mem_nil, or_false] at he
        rcases he with rfl | he
        · simp [Effect.isNoDelay, Effect.isTimerStart, Effect.isHandshake,
            Effect.isReport] at hk
        · simpa using he
  · rw [accept_handler_failure s session ec env hf h]
    refine ⟨_, rfl, ?_, ?_, ?_⟩
    · cases s.on_error <;> simp [Effect.isAccept]
    · intro e he
      cases ho : s.on_error
      · simp [ho] at he
      · simp only [ho, if_true, List.mem_singleton] at he
        subst he
        simp [Effect.isReport]
    · intro e he hk
      simp only [List.mem_cons] at he
      rcases he with rfl | he
      · simp [Effect.isNoDelay, Effect.isTimerStart, Effect.isHandshake,
          Effect.isReport] at hk
      · exact he

/-- Witness of C3: a successful accept of session 0 on a server whose next session
is number 1. -/
theorem accept_handler_posts_accept_first_witness :
    ∃ rest, (accept_handler { samplePlain with next_session := 1 } 0 ⟨0⟩
          { set_no_delay := none, timer := some 0 }).trace
        = Effect.async_accept 1 :: rest ∧
      rest.countP Effect.isAccept = 0 ∧
      (∀ e ∈ rest, e.isNoDelay = true ∨ e.isTimerStart = true ∨ e.isHandshake = true ∨
        e.isReport = true) ∧
      (∀ e ∈ (accept_handler { samplePlain with next_session := 1 } 0 ⟨0⟩
          { set_no_delay := none, timer := some 0 }).trace,
        (e.isNoDelay = true ∨ e.isTimerStart = true ∨ e.isHandshake = true ∨
          e.isReport = true) → e ∈ rest) :=
  accept_handler_posts_accept_first { samplePlain with next_session := 1 } 0 ⟨0⟩
    { set_no_delay := none, timer := some 0 } (by decide)

/-- C4: from the first call of accept() on a server with no accept outstanding,
every sequence of accept completions none of which carries operation_aborted is
handled to the end and leaves exactly one accept operation outstanding, whatever
the completions are (success, failure, or a handler that throws); one session was
made by the first call and one per completion. -/
theorem one_accept_outstanding (s0 : Server) (cs : List (error_code × Env))
    (h0 : s0.accepts = []) (h : ∀ c ∈ cs, c.1 ≠ operation_aborted) :
    ∃ s1, complete_accepts s0.accept.1 cs = some s1 ∧ s1.accepts.length = 1 ∧
      s1.next_session = s0.next_session + 1 + cs.length := by
  have hs : s0.accept.1.accepts = [s0.next_session] := by
    simp [Server.accept, h0]
  obtain ⟨s1, h1, h2, h3⟩ := complete_accepts_invariant cs s0.accept.1 s0.next_session hs h
  exact ⟨s1, h1, h2, h3⟩

/-- Witness of C4: a success, a failure with code 24, and a success whose
set_option throws code 22. -/
theorem one_accept_outstanding_witness :
    ∃ s1, complete_accepts samplePlain.accept.1
        [(⟨0⟩, { set_no_delay := none, timer := some 0 }),
         (⟨24⟩, { set_no_delay := none, timer := none }),
         (⟨0⟩, { set_no_delay := some ⟨22⟩, timer := none })] = some s1 ∧
      s1.accepts.length = 1 ∧ s1.next_session = samplePlain.next_session + 1 + 3 :=
  one_accept_outstanding samplePlain
    [(⟨0⟩, { set_no_delay := none, timer := some 0 }),
     (⟨24⟩, { set_no_delay := none, timer := none }),
     (⟨0⟩, { set_no_delay := some ⟨22⟩, timer := none })] rfl (by decide)

/-! ## Claims on the handshake completion -/

/-- The hand-offs and reports among the calls after the timer is dealt with. -/
theorem handshake_outcome_filters (s : Server) (session : Nat) (ec : error_code) :
    (handshake_outcome s session ec).filter Effect.isHandOff
      = (if ec.failed then [] else [.read_request_and_content session]) ∧
    (handshake_outcome s session ec).filter Effect.isReport
      = (if ec.failed && s.on_error then [.on_error session ec] else []) ∧
    (handshake_outcome s session ec).countP Effect.isCancel = 0 := by
  unfold handshake_outcome
  cases hf : ec.failed <;> cases ho : s.on_error <;>
    simp [Effect.isHandOff, Effect.isReport, Effect.isCancel]

/-- The trace of the handshake handler: the cancel of the timer, when there is a
timer, then the outcome. -/
theorem handshake_handler_trace (s : Server) (session : Nat)
    (timer : Option deadline_timer) (ec : error_code) :
    (handshake_handler s session timer ec).2
      = (match timer with
         | some t => [Effect.timer_cancel t.id]
         | none => []) ++ handshake_outcome s session ec := by
  cases timer with
  | none => rw [handshake_handler_none]; rfl
  | some t => rw [handshake_handler_some]; rfl

/-- C5, counterexample: on a server without error handler (the state the
constructor leaves), a handshake that fails with code 1 is followed by no report at
all, so not by exactly one. -/
theorem handshake_failure_without_handler_not_reported :
    ¬ ExactlyOneOutcome samplePlain 7 (some ⟨3, .armed⟩) ⟨1⟩ := by
  intro h
  have h2 := (h.2 rfl).1
  revert h2
  decide

/-- C5, amended: for every session and every handshake completion code at most one
outcome is acted upon. On success the session is handed to read_request_and_content
exactly once and on_error is not called. On failure read_request_and_content is
never called, and on_error is called exactly once, with the request of the session
and that code, when an error handler is installed; when none is installed nothing
is called. -/
theorem handshake_outcome_by_code_and_handler (s : Server) (session : Nat)
    (timer : Option deadline_timer) (ec : error_code) :
    (ec.failed = false →
      (handshake_handler s session timer ec).2.filter Effect.isHandOff
          = [.read_request_and_content session] ∧
      (handshake_handler s session timer ec).2.filter Effect.isReport = []) ∧
    (ec.failed = true → s.on_error = true →
      (handshake_handler s session timer ec).2.filter Effect.isReport
          = [.on_error session ec] ∧
      (handshake_handler s session timer ec).2.filter Effect.isHandOff = []) ∧
    (ec.failed = true → s.on_error = false →
      (handshake_handler s session timer ec).2.filter Effect.isReport = [] ∧
      (handshake_handler s session timer ec).2.filter Effect.isHandOff = []) := by
  obtain ⟨h1, h2, _⟩ := handshake_outcome_filters s session ec
  rw [handshake_handler_trace]
  have hc : ∀ f : Effect → Bool, (∀ t, f (.timer_cancel t) = false) →
      ((match timer with
         | some t => [Effect.timer_cancel t.id]
         | none => []) ++ handshake_outcome s session ec).filter f
        = (handshake_outcome s session ec).filter f := by
    intro f hf
    cases timer with
    | none => rfl
    | some t => simp [List.filter_cons, hf]
  rw [hc Effect.isHandOff (fun _ => rfl), hc Effect.isReport (fun _ => rfl), h1, h2]
  refine ⟨?_, ?_, ?_⟩
  · intro hf
    simp [hf]
  · intro hf ho
    simp [hf, ho]
  · intro hf ho
    simp [hf, ho]

/-- Witness of C5, amended: a failure with code 1 on a server with an error handler
gives one report; the same on a server without gives none; success gives one
hand-off. -/
theorem handshake_outcome_by_code_and_handler_witness :
    ((handshake_handler { samplePlain with on_error := true } 7 (some ⟨3, .armed⟩) ⟨1⟩
        ).2.filter Effect.isReport = [.on_error 7 ⟨1⟩] ∧
     (handshake_handler { samplePlain with on_error := true } 7 (some ⟨3, .armed⟩) ⟨1⟩
        ).2.filter Effect.isHandOff = []) ∧
    ((handshake_handler samplePlain 7 (some ⟨3, .armed⟩) ⟨1⟩).2.filter Effect.isReport = [] ∧
     (handshake_handler samplePlain 7 (some ⟨3, .armed⟩) ⟨1⟩).2.filter Effect.isHandOff
        = []) ∧
    ((handshake_handler samplePlain 7 (some ⟨3, .armed⟩) ⟨0⟩).2.filter Effect.isHandOff
        = [.read_request_and_content 7] ∧
     (handshake_handler samplePlain 7 (some ⟨3, .armed⟩) ⟨0⟩).2.filter Effect.isReport
        = []) :=
  ⟨(handshake_outcome_by_code_and_handler { samplePlain with on_error := true } 7
      (some ⟨3, .armed⟩) ⟨1⟩).2.1 rfl rfl,
   (handshake_outcome_by_code_and_handler samplePlain 7 (some ⟨3, .armed⟩) ⟨1⟩).2.2 rfl rfl,
   (handshake_outcome_by_code_and_handler samplePlain 7 (some ⟨3, .armed⟩) ⟨0⟩).1 rfl⟩

/-- C6, counterexample: when get_timeout_timer returned no timer, the handshake
handler of a successful handshake cancels nothing; its first call is the hand-off. -/
theorem handshake_handler_without_timer_cancels_nothing :
    ¬ CancelsFirstAndOnce samplePlain 7 none ⟨0⟩ := by
  intro h
  have h2 := h.2
  revert h2
  decide

/-- C6, amended: for every handshake completion, success or failure, of a session
that has a timer, the first call of the handler cancels that timer, before the
hand-off or the report, and it is the only cancel; the timer is then in the state
cancel() leaves it in. When the session has no timer (get_timeout_timer returned
null) the handler cancels nothing and goes on in the same way. -/
theorem handshake_handler_cancels_timer_first (s : Server) (session : Nat)
    (ec : error_code) :
    (∀ t : deadline_timer,
      handshake_handler s session (some t) ec
        = (some t.cancel,
           .timer_cancel t.id :: (handshake_handler s session none ec).2) ∧
      CancelsFirstAndOnce s session (some t) ec) ∧
    (handshake_handler s session none ec).2.countP Effect.isCancel = 0 ∧
    (∀ e ∈ (handshake_handler s session none ec).2,
      e.isHandOff = true ∨ e.isReport = true) := by
  have hcount := (handshake_outcome_filters s session ec).2.2
  refine ⟨?_, ?_, ?_⟩
  · intro t
    refine ⟨?_, ?_, ?_⟩
    · rw [handshake_handler_some, handshake_handler_none]
    · rw [handshake_handler_some]
      rfl
    · rw [handshake_handler_some]
      simp only [List.countP_cons, hcount, Effect.isCancel]
      rfl
  · rw [handshake_handler_none]
    exact hcount
  · rw [handshake_handler_none]
    intro e he
    unfold handshake_outcome at he
    cases hf : ec.failed <;> cases ho : s.on_error <;>
      simp [hf, ho] at he <;> subst he <;> simp [Effect.isHandOff, Effect.isReport]

/-- C7, counterexample: the timer of session 7 has fired; a handshake completion
arriving then with success still hands the session off, and one arriving with
operation_aborted, on a server with an error handler, still reports. -/
theorem late_handshake_completion_still_acts :
    ¬ LateCompletionIsNoOp samplePlain 7 ⟨3, .fired⟩ ⟨0⟩ ∧
    ¬ LateCompletionIsNoOp { samplePlain with on_error := true } 7 ⟨3, .fired⟩
        operation_aborted := by
  constructor
  · intro h
    have h2 := (h rfl).1
    revert h2
    decide
  · intro h
    have h2 := (h rfl).2
    revert h2
    decide

/-- C7, amended: the handshake handler does not look at whether the timer has
fired. For a completion that arrives after the timer fired it calls cancel on the
timer, which leaves a fired timer as it is, and then acts as for any other
completion: on success it hands the session off, on failure it reports to on_error
when an error handler is installed and does nothing more when none is. -/
theorem late_handshake_completion_handled_as_any (s : Server) (session : Nat)
    (t : deadline_timer) (ec : error_code) (h : t.state = .fired) :
    handshake_handler s session (some t) ec
      = (some t,
         .timer_cancel t.id ::
          (if !ec.failed then [Effect.read_request_and_content session]
           else if s.on_error then [Effect.on_error session ec]
           else [])) ∧
    (handshake_handler s session (some t) ec).2
      = (handshake_handler s session (some { t with state := .armed }) ec).2 := by
  have hc : t.cancel = t := by
    unfold deadline_timer.cancel
    rw [h]
  refine ⟨?_, ?_⟩
  · rw [handshake_handler_some, hc]
    rfl
  · rw [handshake_handler_some, handshake_handler_some]

/-- Witness of C7, amended: timer 3 of session 7 has fired and the completion
carries operation_aborted, on a server with an error handler. -/
theorem late_handshake_completion_handled_as_any_witness :
    handshake_handler { samplePlain with on_error := true } 7 (some ⟨3, .fired⟩)
        operation_aborted
      = (some ⟨3, .fired⟩, [.timer_cancel 3, .on_error 7 operation_aborted]) ∧
    (handshake_handler { samplePlain with on_error := true } 7 (some ⟨3, .fired⟩)
        operation_aborted).2
      = (handshake_handler { samplePlain with on_error := true } 7 (some ⟨3, .armed⟩)
          operation_aborted).2 :=
  late_handshake_completion_handled_as_any { samplePlain with on_error := true } 7
    ⟨3, .fired⟩ operation_aborted rfl

/-! ## Claims on the outcome of an accept -/

/-- When set_option succeeds on a successful accept, the handler posts the new
accept, sets the option, calls get_timeout_timer with the request timeout and
begins the handshake with whatever that call returned (a timer or null); nothing is
thrown. -/
theorem accept_success_when_no_delay_is_set (s : Server) (session : Nat)
    (ec : error_code) (env : Env) (h : ec.failed = false)
    (hn : env.set_no_delay = none) :
    (accept_handler s session ec env).trace
      = [.async_accept s.next_session, .set_no_delay session,
         .get_timeout_timer session s.config.timeout_request,
         .async_handshake session env.timer] ∧
    (accept_handler s session ec env).thrown = none := by
  rw [accept_handler_success s session ec env h hn]
  exact ⟨rfl, rfl⟩

/-- C8: the code departs from the claim that a failure to set the no-delay option
is ignored. On the server create returns, with session 0 accepted successfully and
set_option failing with code 22, the handler posts the new accept, calls
set_option, and stops there: the system_error leaves the handler, get_timeout_timer
is never called and no handshake is begun. So the reading of the claim, timer
started, handshake begun and nothing thrown whatever set_option does, is false at
this input. -/
theorem no_delay_failure_escapes_the_handler :
    accept_handler samplePlain 0 ⟨0⟩ { set_no_delay := some ⟨22⟩, timer := some 3 }
      = { server := samplePlain.accept.1,
          trace := [.async_accept 0, .set_no_delay 0],
          thrown := some ⟨22⟩ } ∧
    (accept_handler samplePlain 0 ⟨0⟩ { set_no_delay := some ⟨22⟩, timer := some 3 }
      ).trace.countP Effect.isTimerStart = 0 ∧
    (accept_handler samplePlain 0 ⟨0⟩ { set_no_delay := some ⟨22⟩, timer := some 3 }
      ).trace.countP Effect.isHandshake = 0 ∧
    ¬ NoDelayFailureIgnored samplePlain 0 ⟨0⟩
        { set_no_delay := some ⟨22⟩, timer := some 3 } := by
  refine ⟨by decide, by decide, by decide, ?_⟩
  intro h
  have h2 := (h rfl).2.2
  revert h2
  decide

/-- C9, counterexample: on a server without error handler (the state the
constructor leaves), an accept that fails with code 24 is reported to nobody. -/
theorem accept_failure_without_handler_not_reported :
    ¬ AcceptFailureReportedOnce samplePlain 0 ⟨24⟩ { set_no_delay := none, timer := none } := by
  intro h
  have h2 := (h rfl (by decide)).1
  revert h2
  decide

/-- C9, amended: for every accept completion that failed for a reason other than
abort, no timer is started, no handshake is begun and nothing is handed to
read_request_and_content for that attempt; the failure is reported to on_error
exactly once, with the request of the session and that code, when an error handler
is installed, and is not reported when none is installed. -/
theorem accept_failure_reported_to_installed_handler (s : Server) (session : Nat)
    (ec : error_code) (env : Env) (hf : ec.failed = true) (ha : ec ≠ operation_aborted) :
    (accept_handler s session ec env).trace.filter Effect.isReport
      = (if s.on_error then [.on_error session ec] else []) ∧
    (accept_handler s session ec env).trace.countP Effect.isTimerStart = 0 ∧
    (accept_handler s session ec env).trace.countP Effect.isHandshake = 0 ∧
    (accept_handler s session ec env).trace.countP Effect.isHandOff = 0 ∧
    (accept_handler s session ec env).thrown = none := by
  rw [accept_handler_failure s session ec env hf ha]
  cases ho : s.on_error <;>
    simp [Effect.isReport, Effect.isTimerStart, Effect.isHandshake, Effect.isHandOff]

/-- Witness of C9, amended: the accept of session 0 fails with code 24 on a server
with an error handler. -/
theorem accept_failure_reported_to_installed_handler_witness :
    (accept_handler { samplePlain with on_error := true } 0 ⟨24⟩
        { set_no_delay := none, timer := none }).trace.filter Effect.isReport
      = [.on_error 0 ⟨24⟩] ∧
    (accept_handler { samplePlain with on_error := true } 0 ⟨24⟩
        { set_no_delay := none, timer := none }).trace.countP Effect.isTimerStart = 0 ∧
    (accept_handler { samplePlain with on_error := true } 0 ⟨24⟩
        { set_no_delay := none, timer := none }).trace.countP Effect.isHandshake = 0 ∧
    (accept_handler { samplePlain with on_error := true } 0 ⟨24⟩
        { set_no_delay := none, timer := none }).trace.countP Effect.isHandOff = 0 ∧
    (accept_handler { samplePlain with on_error := true } 0 ⟨24⟩
        { set_no_delay := none, timer := none }).thrown = none :=
  accept_failure_reported_to_installed_handler { samplePlain with on_error := true } 0 ⟨24⟩
    { set_no_delay := none, timer := none } rfl (by decide)

/-- C10: on an accept completion carrying operation_aborted the handler posts no
new accept (the server, with its outstanding accepts, is unchanged) and begins no
handshake, but the error handler, when one is installed, is still called, once,
with the request of the session and the abort code; nothing else is called. -/
theorem aborted_accept_only_reports (s : Server) (session : Nat) (env : Env) :
    (accept_handler s session operation_aborted env).server = s ∧
    (accept_handler s session operation_aborted env).trace.countP Effect.isAccept = 0 ∧
    (accept_handler s session operation_aborted env).trace.countP Effect.isHandshake = 0 ∧
    (accept_handler s session operation_aborted env).trace
      = (if s.on_error then [.on_error session operation_aborted] else []) := by
  rw [accept_handler_aborted]
  cases ho : s.on_error <;> simp [Effect.isAccept, Effect.isHandshake]

end SimpleWeb
